import Mathlib

/-!
# Verification of the vulkan-examples repository

A shallow embedding of the resource-and-command orchestration logic of the
three example programs (`vector_add/vector_add.cpp`, `triangle/triangle.cpp`,
`example.cpp`) together with theorems settling the frozen claims about the
specification.

Conventions of the embedding:
* Vulkan handles are modelled by indices (`Nat`) or by enumeration types;
  `VK_NULL_HANDLE` becomes `Option.none` where relevant.
* Machine integers are modelled by `Nat`/`Int`; all concrete values involved
  stay far below 2^31, so no wrap-around occurs and none is modelled, except
  where noted (`~42` on a 32-bit `int` is `-43`, the source comments say so
  explicitly).
* Straight-line fragments of `main` are embedded either as pure functions of
  the device-supplied data they consume, or as explicit event traces when a
  claim is about ordering.
-/

namespace VulkanExamples

/-! ## Vulkan constants (values from vulkan.h) -/

def VK_QUEUE_GRAPHICS_BIT : Nat := 1
def VK_QUEUE_COMPUTE_BIT : Nat := 2

def VK_MEMORY_PROPERTY_DEVICE_LOCAL_BIT : Nat := 1
def VK_MEMORY_PROPERTY_HOST_VISIBLE_BIT : Nat := 2
def VK_MEMORY_PROPERTY_HOST_COHERENT_BIT : Nat := 4

/-! ## Device and queue-family data (vector_add.cpp lines 113-137)

`vkGetPhysicalDeviceQueueFamilyProperties` fills a vector of
`VkQueueFamilyProperties`; only the `queueFlags` field is inspected by the
examples. -/

structure QueueFamilyProperties where
  queueFlags : Nat
deriving DecidableEq, Repr

structure PhysicalDevice where
  queueFamilies : List QueueFamilyProperties
deriving DecidableEq, Repr

/-- The inner loop of the device-selection scan (vector_add.cpp lines 124-133):
walk the queue families of one device carrying the running `index` counter and
return the index of the first family whose `queueFlags` has the compute bit
set, or `none` when the loop falls through. -/
def findComputeFamily : List QueueFamilyProperties → Nat → Option Nat
  | [], _ => none
  | p :: rest, index =>
    if p.queueFlags &&& VK_QUEUE_COMPUTE_BIT ≠ 0 then some index
    else findComputeFamily rest (index + 1)

/-- State left behind by the selection loop: the chosen physical device (as an
index into the enumerated list, `none` for `VK_NULL_HANDLE`) and the
`queueFamilyIndex` variable, which is initialised to `0` and only assigned on
a match (vector_add.cpp lines 114-116). -/
structure DeviceSelectionState where
  physicalDevice : Option Nat
  queueFamilyIndex : Nat
deriving DecidableEq, Repr

/-- The outer loop of the device-selection scan (vector_add.cpp lines 117-137):
walk the enumerated devices in order; on the first device with a compute-capable
queue family, store that device and the family index and break; if no device
matches, `physicalDevice` stays `VK_NULL_HANDLE` and `queueFamilyIndex` stays
`0`. The accumulator `devIdx` numbers devices in enumeration order. -/
def deviceSelectionLoop : List PhysicalDevice → Nat → DeviceSelectionState
  | [], _ => ⟨none, 0⟩
  | d :: rest, devIdx =>
    match findComputeFamily d.queueFamilies 0 with
    | some famIdx => ⟨some devIdx, famIdx⟩
    | none => deviceSelectionLoop rest (devIdx + 1)

/-- What `main` does right after the selection loop. In the source
(vector_add.cpp lines 139-161, identically triangle.cpp lines 218-238 with the
graphics bit) the very next effect is the `vkCreateDevice` call on whatever
`physicalDevice` holds — there is no null check and no error report between
the loop and the call. -/
inductive SelectionOutcome
  | createDeviceCall (physicalDevice : Option Nat) (queueFamilyIndex : Nat)
  | noCapableDeviceReport
deriving DecidableEq, Repr

/-- vector_add.cpp lines 113-161: run the selection loop, then call
`vkCreateDevice` with the resulting (possibly null) handle, unconditionally. -/
def vectorAddSelectionOutcome (devices : List PhysicalDevice) : SelectionOutcome :=
  let s := deviceSelectionLoop devices 0
  SelectionOutcome.createDeviceCall s.physicalDevice s.queueFamilyIndex

/-! ## Memory-type selection (vector_add.cpp lines 30-41 and 289-301) -/

structure MemoryType where
  propertyFlags : Nat
deriving DecidableEq, Repr

/-- `VkPhysicalDeviceMemoryProperties`: the examples read `memoryTypeCount`
(the list length here) and `memoryTypes[index].propertyFlags`. -/
structure PhysicalDeviceMemoryProperties where
  memoryTypes : List MemoryType
deriving DecidableEq, Repr

/-- Loop body of `findMemoryTypeFromProperties` (vector_add.cpp lines 34-39),
carrying the running `index`: return `index` at the first memory type whose
bit is set in `memoryTypeBits` and whose `propertyFlags` compare EQUAL (`==`,
not superset containment) to `requiredProperties`; fall through to `-1`. -/
def findMemoryTypeGo (memoryTypeBits requiredProperties : Nat) :
    List MemoryType → Nat → Int
  | [], _ => -1
  | t :: rest, index =>
    if memoryTypeBits &&& (1 <<< index) ≠ 0 ∧ t.propertyFlags = requiredProperties
    then (index : Int)
    else findMemoryTypeGo memoryTypeBits requiredProperties rest (index + 1)

/-- `findMemoryTypeFromProperties` (vector_add.cpp lines 31-41; the identical
`findMemoryTypeIndexFromProperties` is at triangle.cpp lines 83-93). -/
def findMemoryTypeFromProperties (memoryTypeBits : Nat)
    (properties : PhysicalDeviceMemoryProperties) (requiredProperties : Nat) : Int :=
  findMemoryTypeGo memoryTypeBits requiredProperties properties.memoryTypes 0

/-- The property-flag set requested by the compute example
(vector_add.cpp lines 297-298). -/
def hostVisibleCoherent : Nat :=
  VK_MEMORY_PROPERTY_HOST_VISIBLE_BIT ||| VK_MEMORY_PROPERTY_HOST_COHERENT_BIT

/-- vector_add.cpp lines 295-301: look the memory type up with the
host-visible/host-coherent request; when the lookup returns a negative index,
`main` returns `~42`, which on a 32-bit `int` is `-43` (the source comment on
line 300 says "returns -43"); otherwise continue with the found index. -/
def vectorAddMemoryTypeSelection (memoryTypeBits : Nat)
    (properties : PhysicalDeviceMemoryProperties) : Except Int Int :=
  let memoryTypeIndex :=
    findMemoryTypeFromProperties memoryTypeBits properties hostVisibleCoherent
  if memoryTypeIndex < 0 then Except.error (-43) else Except.ok memoryTypeIndex

/-! ## Memory requirements and sub-allocation layout
(vector_add.cpp lines 273-337) -/

/-- `VkMemoryRequirements`: the fields filled by
`vkGetBufferMemoryRequirements`. The examples read only `size` and
`memoryTypeBits`; `alignment` is returned by the driver but never consulted. -/
structure MemoryRequirements where
  size : Nat
  alignment : Nat
  memoryTypeBits : Nat
deriving DecidableEq, Repr

/-- The per-buffer memory requirements a device would report for the three
buffers of the compute example. This is the device-side environment the
querying code runs against. -/
structure BufferMemoryEnv where
  bufferA : MemoryRequirements
  bufferB : MemoryRequirements
  bufferResult : MemoryRequirements
deriving DecidableEq, Repr

/-- vector_add.cpp line 279: `vkGetBufferMemoryRequirements(device, bufferA,
&bufferAMemoryRequirements)`. -/
def bufferAMemoryRequirements (env : BufferMemoryEnv) : MemoryRequirements :=
  env.bufferA

/-- vector_add.cpp line 282: `vkGetBufferMemoryRequirements(device, bufferA,
&bufferBMemoryRequirements)` — the handle passed is `bufferA`, not
`bufferB`. -/
def bufferBMemoryRequirements (env : BufferMemoryEnv) : MemoryRequirements :=
  env.bufferA

/-- vector_add.cpp lines 285-286: `vkGetBufferMemoryRequirements(device,
bufferA, &bufferResultMemoryRequirements)` — the handle passed is `bufferA`,
not `bufferResult`. -/
def bufferResultMemoryRequirements (env : BufferMemoryEnv) : MemoryRequirements :=
  env.bufferA

/-- vector_add.cpp lines 277-287: `requiredMemorySize` accumulates the three
queried sizes with plain addition; no rounding of any kind is applied. -/
def vectorAddRequiredMemorySize (env : BufferMemoryEnv) : Nat :=
  (bufferAMemoryRequirements env).size + (bufferBMemoryRequirements env).size +
    (bufferResultMemoryRequirements env).size

/-- vector_add.cpp lines 318-337: `memoryOffset` starts at `0`; `bufferA` is
bound at it, then it is advanced by `bufferAMemoryRequirements.size` for the
`bufferB` bind and by `bufferBMemoryRequirements.size` for the `bufferResult`
bind. The list collects the three offsets passed to `vkBindBufferMemory` in
order. -/
def vectorAddBindOffsets (env : BufferMemoryEnv) : List Nat :=
  [0,
   0 + (bufferAMemoryRequirements env).size,
   0 + (bufferAMemoryRequirements env).size + (bufferBMemoryRequirements env).size]

/-- The source's sub-allocation layout generalised from the three-buffer
straight-line sequence to any resource list: each resource is bound at the
running offset and the offset then advances by that resource's raw queried
`size` — exactly the `memoryOffset += requirements.size` pattern of
vector_add.cpp lines 318-337, with no alignment rounding. -/
def bindOffsets : List MemoryRequirements → Nat → List Nat
  | [], _ => []
  | r :: rest, memoryOffset => memoryOffset :: bindOffsets rest (memoryOffset + r.size)

/-- The generalisation of `requiredMemorySize` (vector_add.cpp lines 277-287):
a plain running sum of the queried sizes. -/
def totalRequiredMemorySize (rs : List MemoryRequirements) : Nat :=
  rs.foldl (fun acc r => acc + r.size) 0

/-- Sum of the raw sizes of the first `i` resources; the closed form of the
running `memoryOffset` variable. -/
def offsetSum (rs : List MemoryRequirements) (i : Nat) : Nat :=
  ((rs.map (fun r => r.size)).take i).sum

/-- The spec's `alignedSize`: round `size` up to the next multiple of
`alignment` (stated by the spec, NOT implemented anywhere in the source; kept
here to state the claim that mentions it). -/
def alignedSize (size alignment : Nat) : Nat :=
  if alignment = 0 then size else ((size + alignment - 1) / alignment) * alignment

/-! ## The compute end-to-end run (vector_add.cpp lines 245-523)

The mapped allocation is modelled as a function from element index (the
source maps the whole block and addresses it as an `int32_t *`) to the stored
32-bit value (`Int`; every value occurring in the run fits comfortably in an
`int32_t`, so two's-complement wrap-around never triggers and is not
modelled). The model fixes the driver-reported buffer requirement size to the
created buffer size, `sizeof(uint32_t) * 1024` bytes, i.e. `1024` elements,
which is the identification the host-side pointer arithmetic of the source
relies on. Under it the three buffers are bound at element offsets `0`,
`1024` and `2048`. -/

/-- `const uint32_t elements = 1024` (vector_add.cpp line 246). -/
def elements : Nat := 1024

/-- A single store through the mapped pointer. -/
def writeMem (mem : Nat → Int) (addr : Nat) (v : Int) : Nat → Int :=
  fun a => if a = addr then v else mem a

/-- One iteration of the input-initialisation loop (vector_add.cpp lines
485-491): `aData[index] = index; bData[index] = -index;
resultData[index] = 42;`. -/
def hostWriteIteration (aData bData resultData : Nat) (mem : Nat → Int)
    (index : Nat) : Nat → Int :=
  writeMem
    (writeMem (writeMem mem (aData + index) (index : Int))
      (bData + index) (-(index : Int)))
    (resultData + index) 42

/-- The whole initialisation loop, `index` running over `0, ..., 1023`. -/
def hostWriteLoop (aData bData resultData : Nat) (mem : Nat → Int) : Nat → Int :=
  (List.range elements).foldl (hostWriteIteration aData bData resultData) mem

/-- The first mapping window (vector_add.cpp lines 470-491): the source sets
`aData = data`, `bData = data + elements` and — although `dataOffset` has been
advanced twice — `resultData = data + elements` (line 483), so the result
pointer coincides with the `bData` pointer. -/
def vectorAddHostWrites (mem : Nat → Int) : Nat → Int :=
  hostWriteLoop 0 elements elements mem

/-- Modelled from the spec: the compute shader `vector_add.comp` is not under
`src/` (only its compiled binary is loaded at vector_add.cpp line 217). Per
the spec's end-to-end scenario it stores `R[i] = A[i] + B[i]` for every
invocation `i` of the `1024`-wide dispatch, reading `A` and `B` from the
buffers bound at `aOff` and `bOff` and writing `R` to the buffer bound at
`rOff`. -/
def shaderDispatch (aOff bOff rOff : Nat) (mem : Nat → Int) : Nat → Int :=
  fun addr =>
    if rOff ≤ addr ∧ addr < rOff + elements then
      mem (aOff + (addr - rOff)) + mem (bOff + (addr - rOff))
    else mem addr

/-- Device memory after the host writes and the awaited dispatch, starting
from initial contents `mem`: the buffers are bound at element offsets `0`,
`elements` and `2 * elements` (vector_add.cpp lines 318-337 with the queried
size equal to the buffer size). -/
def vectorAddDeviceMemoryAfterRun (mem : Nat → Int) : Nat → Int :=
  shaderDispatch 0 elements (2 * elements) (vectorAddHostWrites mem)

/-- The readback window (vector_add.cpp lines 506-521): this time the source
computes `aData = data`, `bData = data + 1024` and `resultData = data + 2048`,
so `resultData[i]` reads element `2 * elements + i`. -/
def vectorAddReadbackResult (mem : Nat → Int) (i : Nat) : Int :=
  vectorAddDeviceMemoryAfterRun mem (2 * elements + i)

/-! ## Descriptor declaration, pool sizing and set allocation
(vector_add.cpp lines 167-417, triangle.cpp lines 348-367 and 494-518,
example.cpp lines 159-196) -/

inductive DescriptorType
  | storageBuffer
  | uniformBuffer
deriving DecidableEq, Repr

def VK_SHADER_STAGE_VERTEX_BIT : Nat := 1
def VK_SHADER_STAGE_COMPUTE_BIT : Nat := 32

/-- `VkDescriptorSetLayoutBinding` as the examples fill it. -/
structure DescriptorSetLayoutBinding where
  binding : Nat
  descriptorType : DescriptorType
  descriptorCount : Nat
  stageFlags : Nat
deriving DecidableEq, Repr

/-- vector_add.cpp lines 167-187: the `layoutBindings` vector — three storage
buffer slots 0, 1, 2, compute stage. This one vector is passed to
`vkCreateDescriptorSetLayout` (lines 195-196). -/
def vectorAddLayoutBindings : List DescriptorSetLayoutBinding :=
  [⟨0, DescriptorType.storageBuffer, 1, VK_SHADER_STAGE_COMPUTE_BIT⟩,
   ⟨1, DescriptorType.storageBuffer, 1, VK_SHADER_STAGE_COMPUTE_BIT⟩,
   ⟨2, DescriptorType.storageBuffer, 1, VK_SHADER_STAGE_COMPUTE_BIT⟩]

/-- triangle.cpp lines 348-358: two uniform buffer slots 0, 1, vertex stage;
passed to `vkCreateDescriptorSetLayout` (lines 363-364). -/
def triangleLayoutBindings : List DescriptorSetLayoutBinding :=
  [⟨0, DescriptorType.uniformBuffer, 1, VK_SHADER_STAGE_VERTEX_BIT⟩,
   ⟨1, DescriptorType.uniformBuffer, 1, VK_SHADER_STAGE_VERTEX_BIT⟩]

/-- `VkDescriptorPoolSize`. -/
structure DescriptorPoolSize where
  type : DescriptorType
  descriptorCount : Nat
deriving DecidableEq, Repr

/-- How a pool's `descriptorCount` is obtained in the source text: either from
the length of a binding declaration (`layoutBindings.size()`) or as an
independent numeric literal. -/
inductive PoolCountSource
  | sizeOfDeclaredBindings
  | independentLiteral (n : Nat)
deriving DecidableEq, Repr

/-- vector_add.cpp line 356: `poolSize.descriptorCount = layoutBindings.size()`
— derived from the same `layoutBindings` vector that built the layout. -/
def vectorAddPoolCountSource : PoolCountSource :=
  PoolCountSource.sizeOfDeclaredBindings

/-- vector_add.cpp lines 352-356. -/
def vectorAddPoolSize : DescriptorPoolSize :=
  ⟨DescriptorType.storageBuffer, vectorAddLayoutBindings.length⟩

/-- triangle.cpp line 496: `poolSize.descriptorCount = 2` — a numeric
literal, written independently of `layoutBindings`. -/
def trianglePoolCountSource : PoolCountSource :=
  PoolCountSource.independentLiteral 2

/-- triangle.cpp lines 494-496. -/
def trianglePoolSize : DescriptorPoolSize :=
  ⟨DescriptorType.uniformBuffer, 2⟩

/-- Modelled from the spec: the driver-side success condition of
`vkAllocateDescriptorSets` for one set (the call itself is external to the
repository). Allocating one set from the pool succeeds when the pool still
has a set left (`1 ≤ maxSets`) and, for every binding of the layout, the
pool's size entry covers its descriptor type and count. The examples use a
single pool-size entry, modelled here. -/
def allocateOneSetSucceeds (maxSets : Nat) (poolSize : DescriptorPoolSize)
    (layoutBindings : List DescriptorSetLayoutBinding) : Bool :=
  decide (1 ≤ maxSets) &&
    layoutBindings.all (fun b => b.descriptorType == poolSize.type) &&
    decide ((layoutBindings.map (fun b => b.descriptorCount)).sum ≤
      poolSize.descriptorCount)

/-! ### Descriptor-set writes and command recording
(vector_add.cpp lines 378-460) -/

/-- The `dstBinding` fields of the three `VkWriteDescriptorSet` entries pushed
into `descriptorSetWrites` (vector_add.cpp lines 385, 403, 412) and flushed by
the single `vkUpdateDescriptorSets` call (line 416). -/
def vectorAddDescriptorWrites : List Nat := [0, 1, 2]

/-- The slots declared by the layout the set was allocated against
(bindings 0, 1, 2 of `vectorAddLayoutBindings`). -/
def declaredSlots : List Nat :=
  vectorAddLayoutBindings.map (fun b => b.binding)

inductive DescriptorPhaseError
  | incompleteDescriptorSet
deriving DecidableEq, Repr

inductive Cmd
  | bindPipeline
  | bindDescriptorSets
  | dispatch (x y z : Nat)
deriving DecidableEq, Repr

/-- The commands recorded into the command buffer
(vector_add.cpp lines 455-460). -/
def vectorAddRecordedCommands : List Cmd :=
  [Cmd.bindPipeline, Cmd.bindDescriptorSets, Cmd.dispatch elements 1 1]

/-- The recording phase of the source (vector_add.cpp lines 448-466): begin
the command buffer, record bind-pipeline, bind-descriptor-sets and dispatch,
and end it. The source performs no check of any kind against the set of slots
already written — the recording is the same no matter which descriptor writes
have happened, which this embedding makes explicit by taking the written
slots as an (unused) argument. -/
def recordUsePhase (writtenSlots : List Nat) :
    Except DescriptorPhaseError (List Cmd) :=
  Except.ok vectorAddRecordedCommands

/-- The claim's guarded recording step, following the spec's words: track the
written slots and fail fast with `IncompleteDescriptorSetError` before
recording any command that uses the set whenever a declared slot is
unwritten. Stated for comparison with `recordUsePhase`; not present in the
source. -/
def recordUsePhaseChecked (writtenSlots : List Nat) :
    Except DescriptorPhaseError (List Cmd) :=
  if declaredSlots.all (fun s => writtenSlots.contains s) then
    Except.ok vectorAddRecordedCommands
  else
    Except.error DescriptorPhaseError.incompleteDescriptorSet

/-- The claim's fail-fast property as a proposition about the source's
recording phase. -/
def failsFastOnIncompleteSet : Prop :=
  ∀ writtenSlots : List Nat,
    ¬ declaredSlots.all (fun s => writtenSlots.contains s) = true →
      recordUsePhase writtenSlots =
        Except.error DescriptorPhaseError.incompleteDescriptorSet

/-- Descriptor-write and command-recording events of the compute example in
program order (vector_add.cpp lines 416, 452, 457, 463). -/
inductive SetupEvent
  | updateDescriptorSets (slots : List Nat)
  | beginCommandBuffer
  | recordBindDescriptorSets
  | endCommandBuffer
deriving DecidableEq, Repr

/-- vector_add.cpp: all three writes are flushed by `vkUpdateDescriptorSets`
(line 416) before `vkBeginCommandBuffer` (line 452) and the
`vkCmdBindDescriptorSets` that uses the set (line 457). -/
def vectorAddSetupTrace : List SetupEvent :=
  [SetupEvent.updateDescriptorSets vectorAddDescriptorWrites,
   SetupEvent.beginCommandBuffer, SetupEvent.recordBindDescriptorSets,
   SetupEvent.endCommandBuffer]

/-- The slots written before the first recorded command that binds the set. -/
def slotsWrittenBeforeUse : List SetupEvent → List Nat
  | [] => []
  | SetupEvent.updateDescriptorSets slots :: rest =>
      slots ++ slotsWrittenBeforeUse rest
  | SetupEvent.recordBindDescriptorSets :: _ => []
  | _ :: rest => slotsWrittenBeforeUse rest

/-! ## Event traces for the temporal claims -/

/-- Host-mapping and queue events of the compute example in program order. -/
inductive MemEvent
  | mapMemory
  | unmapMemory
  | queueSubmit
  | queueWaitIdle
deriving DecidableEq, Repr

/-- vector_add.cpp lines 471, 493, 502, 504, 508, 523: map, write inputs,
unmap, submit, wait idle, map, read results, unmap. -/
def vectorAddMemEventTrace : List MemEvent :=
  [MemEvent.mapMemory, MemEvent.unmapMemory, MemEvent.queueSubmit,
   MemEvent.queueWaitIdle, MemEvent.mapMemory, MemEvent.unmapMemory]

/-- Whether the block is mapped after executing a prefix of the trace:
`vkMapMemory` maps it, `vkUnmapMemory` unmaps it, queue events leave it
unchanged. -/
def isMapped (trace : List MemEvent) : Bool :=
  trace.foldl
    (fun m e =>
      match e with
      | MemEvent.mapMemory => true
      | MemEvent.unmapMemory => false
      | _ => m)
    false

/-- Work is in flight after a prefix of the trace when a submit has happened
that no later wait-for-idle has drained. With one submit and one wait this is
just `count submits > count waits`. -/
def workInFlight (trace : List MemEvent) : Bool :=
  trace.count MemEvent.queueWaitIdle < trace.count MemEvent.queueSubmit

/-! ### Teardown order (vector_add.cpp lines 525-539) -/

/-- The objects of the compute example that are still alive when the teardown
block at the end of `main` runs, in creation order. (The shader module is
created at line 222 but already destroyed at line 243; the descriptor set and
the command buffer are freed implicitly with their pools and have no explicit
destroy call.) -/
inductive VAObj
  | inst
  | device
  | setLayout
  | pipelineLayout
  | pipeline
  | bufferA
  | bufferB
  | bufferResult
  | memory
  | descriptorPool
  | commandPool
deriving DecidableEq, Repr

/-- Creation order (vector_add.cpp lines 73, 158, 198, 211, 236, 256, 262,
268, 311, 359, 426). -/
def vectorAddCreationOrder : List VAObj :=
  [VAObj.inst, VAObj.device, VAObj.setLayout, VAObj.pipelineLayout,
   VAObj.pipeline, VAObj.bufferA, VAObj.bufferB, VAObj.bufferResult,
   VAObj.memory, VAObj.descriptorPool, VAObj.commandPool]

/-- Destruction order of the teardown block (vector_add.cpp lines 526-539):
command pool, MEMORY, result/B/A buffers, descriptor pool, pipeline, pipeline
layout, set layout, device, instance. -/
def vectorAddDestructionOrder : List VAObj :=
  [VAObj.commandPool, VAObj.memory, VAObj.bufferResult, VAObj.bufferB,
   VAObj.bufferA, VAObj.descriptorPool, VAObj.pipeline, VAObj.pipelineLayout,
   VAObj.setLayout, VAObj.device, VAObj.inst]

/-! ## Concrete fixtures used by counterexamples and witnesses -/

/-- A device exposing a single graphics-only queue family. -/
def graphicsOnlyDevice : PhysicalDevice :=
  ⟨[⟨VK_QUEUE_GRAPHICS_BIT⟩]⟩

/-- A device whose queue families are graphics, graphics, compute — the
compute-capable family sits at index 2. -/
def computeAtTwoDevice : PhysicalDevice :=
  ⟨[⟨VK_QUEUE_GRAPHICS_BIT⟩, ⟨VK_QUEUE_GRAPHICS_BIT⟩, ⟨VK_QUEUE_COMPUTE_BIT⟩]⟩

/-- A device environment reporting size 3, alignment 4 for `bufferA` (and for
the other two buffers, which the compute example never asks about). -/
def misalignedEnv : BufferMemoryEnv :=
  ⟨⟨3, 4, 1⟩, ⟨3, 4, 1⟩, ⟨3, 4, 1⟩⟩

/-! ## Theorems for the claims -/

/-- **C3, counterexample.** With a device list whose only device exposes no
compute-capable queue family, the compute example does not report any failure
of device selection: the statement executed after the selection loop is the
`vkCreateDevice` call, made with the still-null `physicalDevice` handle and
`queueFamilyIndex = 0`. -/
theorem selection_no_report_counterexample :
    vectorAddSelectionOutcome [graphicsOnlyDevice] =
      SelectionOutcome.createDeviceCall none 0 ∧
    vectorAddSelectionOutcome [graphicsOnlyDevice] ≠
      SelectionOutcome.noCapableDeviceReport := by
  decide

/-- **C6.** The teardown block of the compute example does not release
objects in reverse creation order, although it does destroy each of them: the
device memory is freed before the three buffers bound into it are destroyed
(and the descriptor pool, created after the memory, is destroyed after the
buffers). This contradicts the source's own comment "destroy all the
resources we created in reverse order" (vector_add.cpp line 525) and the
claim that the memory block is destroyed only after all bound resources. -/
theorem teardown_not_reverse_order :
    vectorAddDestructionOrder ≠ vectorAddCreationOrder.reverse ∧
    vectorAddDestructionOrder.indexOf VAObj.memory <
      vectorAddDestructionOrder.indexOf VAObj.bufferA ∧
    vectorAddDestructionOrder.indexOf VAObj.memory <
      vectorAddDestructionOrder.indexOf VAObj.bufferB ∧
    vectorAddDestructionOrder.indexOf VAObj.memory <
      vectorAddDestructionOrder.indexOf VAObj.bufferResult ∧
    vectorAddCreationOrder.length = vectorAddDestructionOrder.length ∧
    (∀ x ∈ vectorAddCreationOrder, x ∈ vectorAddDestructionOrder) := by
  refine ⟨by decide, by decide, by decide, by decide, by decide, by decide⟩

/-- **C7, counterexample.** The recording phase of the compute example has no
completeness tracking: at the concrete input where no descriptor slot has
been written, it records the commands that use the set instead of failing
with `IncompleteDescriptorSetError`. -/
theorem no_fail_fast_counterexample :
    ¬ failsFastOnIncompleteSet ∧
    recordUsePhase [] = Except.ok vectorAddRecordedCommands ∧
    recordUsePhaseChecked [] =
      Except.error DescriptorPhaseError.incompleteDescriptorSet := by
  refine ⟨?_, rfl, rfl⟩
  intro h
  exact Except.noConfusion (h [] (by decide))

/-- **C7, amended.** In the compute example every declared slot (0, 1, 2) is
written — by the `vkUpdateDescriptorSets` call — before the command that
binds the set is recorded; but the recording step itself performs no
completeness check: it records the same commands whatever set of slots has
been written, and no `IncompleteDescriptorSetError` exists in the source. -/
theorem descriptor_writes_precede_use :
    declaredSlots.all
      (fun s => (slotsWrittenBeforeUse vectorAddSetupTrace).contains s) = true ∧
    ∀ writtenSlots : List Nat,
      recordUsePhase writtenSlots = Except.ok vectorAddRecordedCommands := by
  exact ⟨by decide, fun _ => rfl⟩

/-- **C8.** In the compute example's trace of mapping and queue events there
are exactly two mapping windows (two maps, two unmaps); the block is unmapped
at every point at which submitted work is in flight (after the submit and
before the wait-for-idle); the first window is closed before the submit and
the second opens only after the wait-for-idle. -/
theorem mapping_windows_exclusive_with_gpu :
    vectorAddMemEventTrace.count MemEvent.mapMemory = 2 ∧
    vectorAddMemEventTrace.count MemEvent.unmapMemory = 2 ∧
    ((List.range (vectorAddMemEventTrace.length + 1)).all
      (fun k => !(workInFlight (vectorAddMemEventTrace.take k) &&
        isMapped (vectorAddMemEventTrace.take k)))) = true ∧
    isMapped (vectorAddMemEventTrace.take 2) = false ∧
    (vectorAddMemEventTrace.take 2).count MemEvent.queueSubmit = 0 ∧
    isMapped (vectorAddMemEventTrace.take 4) = false ∧
    (vectorAddMemEventTrace.take 4).count MemEvent.queueWaitIdle = 1 := by
  decide

/-- **C9, counterexample.** In triangle.cpp the descriptor pool's capacity is
not computed from the slot declaration used for the layout: it is the
independent numeric literal `2` (triangle.cpp line 496), a second literal
that merely happens to equal `layoutBindings.size()`. -/
theorem triangle_pool_literal_counterexample :
    trianglePoolCountSource ≠ PoolCountSource.sizeOfDeclaredBindings ∧
    trianglePoolCountSource = PoolCountSource.independentLiteral 2 := by
  decide

/-- **C9, amended.** The compute example derives its pool capacity from the
same `layoutBindings` vector used to build the layout (`layoutBindings.size()`,
a single programmatic source of truth) and allocating its one set succeeds;
the graphics example's pool capacity is exact and its allocation succeeds
too, but the capacity is an independent literal rather than being derived
from the declaration. -/
theorem pool_sizing_exact :
    vectorAddPoolCountSource = PoolCountSource.sizeOfDeclaredBindings ∧
    vectorAddPoolSize.descriptorCount = vectorAddLayoutBindings.length ∧
    allocateOneSetSucceeds 1 vectorAddPoolSize vectorAddLayoutBindings = true ∧
    trianglePoolSize.descriptorCount = triangleLayoutBindings.length ∧
    allocateOneSetSucceeds 1 trianglePoolSize triangleLayoutBindings = true := by
  decide

/-- **C2, counterexample.** On a device reporting size 3, alignment 4 for
`bufferA`, the compute example's bind offsets are `[0, 3, 6]`: the second
offset is neither the first offset plus `alignedSize(3, 4) = 4` (the claim's
recurrence) nor a multiple of the second resource's required alignment 4. The
source advances the offset by the raw queried size and never rounds to the
alignment. -/
theorem bindOffsets_alignment_counterexample :
    ¬ ((vectorAddBindOffsets misalignedEnv).getD 1 0 =
        (vectorAddBindOffsets misalignedEnv).getD 0 0 +
          alignedSize (bufferAMemoryRequirements misalignedEnv).size
            (bufferAMemoryRequirements misalignedEnv).alignment ∧
       (vectorAddBindOffsets misalignedEnv).getD 1 0 %
        (bufferBMemoryRequirements misalignedEnv).alignment = 0) := by
  decide

/-! ### Helper lemmas about the selection loops -/

lemma findComputeFamily_none (fams : List QueueFamilyProperties) (k : Nat)
    (h : ∀ f ∈ fams, f.queueFlags &&& VK_QUEUE_COMPUTE_BIT = 0) :
    findComputeFamily fams k = none := by
  induction fams generalizing k with
  | nil => rfl
  | cons p rest ih =>
    have hp := h p (List.mem_cons_self p rest)
    simp only [findComputeFamily]
    rw [if_neg (not_not_intro hp)]
    exact ih (k + 1) (fun f hf => h f (List.mem_cons_of_mem p hf))

lemma deviceSelectionLoop_none (devices : List PhysicalDevice) (k : Nat)
    (h : ∀ p ∈ devices, ∀ f ∈ p.queueFamilies,
      f.queueFlags &&& VK_QUEUE_COMPUTE_BIT = 0) :
    deviceSelectionLoop devices k = ⟨none, 0⟩ := by
  induction devices generalizing k with
  | nil => rfl
  | cons d rest ih =>
    have hd := findComputeFamily_none d.queueFamilies 0
      (h d (List.mem_cons_self d rest))
    simp only [deviceSelectionLoop, hd]
    exact ih (k + 1) (fun p hp => h p (List.mem_cons_of_mem d hp))

lemma findComputeFamily_first (fpre fpost : List QueueFamilyProperties)
    (q : QueueFamilyProperties) (k : Nat)
    (hfpre : ∀ f ∈ fpre, f.queueFlags &&& VK_QUEUE_COMPUTE_BIT = 0)
    (hq : q.queueFlags &&& VK_QUEUE_COMPUTE_BIT ≠ 0) :
    findComputeFamily (fpre ++ q :: fpost) k = some (k + fpre.length) := by
  induction fpre generalizing k with
  | nil =>
    simp only [List.nil_append, findComputeFamily]
    rw [if_pos hq]
    simp
  | cons p rest ih =>
    have hp := hfpre p (List.mem_cons_self p rest)
    simp only [List.cons_append, findComputeFamily]
    rw [if_neg (not_not_intro hp)]
    rw [List.append_eq, ih (k + 1) (fun f hf => hfpre f (List.mem_cons_of_mem p hf))]
    congr 1
    simp only [List.length_cons]
    omega

lemma deviceSelectionLoop_skip (pre rest : List PhysicalDevice) (k : Nat)
    (hpre : ∀ p ∈ pre, ∀ f ∈ p.queueFamilies,
      f.queueFlags &&& VK_QUEUE_COMPUTE_BIT = 0) :
    deviceSelectionLoop (pre ++ rest) k =
      deviceSelectionLoop rest (k + pre.length) := by
  induction pre generalizing k with
  | nil => simp
  | cons d ds ih =>
    have hd := findComputeFamily_none d.queueFamilies 0
      (hpre d (List.mem_cons_self d ds))
    simp only [List.cons_append, deviceSelectionLoop, hd]
    rw [List.append_eq, ih (k + 1) (fun p hp => hpre p (List.mem_cons_of_mem d hp))]
    congr 1
    simp only [List.length_cons]
    omega

/-- **C3, amended.** When no enumerated device exposes a queue family with
the compute bit, the selection loop of the compute example terminates with
`physicalDevice` still `VK_NULL_HANDLE` and `queueFamilyIndex = 0`, and the
program then proceeds straight to the `vkCreateDevice` call on that null
handle; no `NoCapableDeviceError` (or any other report) is produced by the
selection logic. -/
theorem selection_proceeds_with_null_device (devices : List PhysicalDevice)
    (h : ∀ p ∈ devices, ∀ f ∈ p.queueFamilies,
      f.queueFlags &&& VK_QUEUE_COMPUTE_BIT = 0) :
    vectorAddSelectionOutcome devices =
      SelectionOutcome.createDeviceCall none 0 := by
  simp [vectorAddSelectionOutcome, deviceSelectionLoop_none devices 0 h]

/-- Witness for `selection_proceeds_with_null_device` at a one-device list. -/
theorem selection_proceeds_with_null_device_witness :
    (∀ p ∈ [graphicsOnlyDevice], ∀ f ∈ p.queueFamilies,
      f.queueFlags &&& VK_QUEUE_COMPUTE_BIT = 0) ∧
    vectorAddSelectionOutcome [graphicsOnlyDevice] =
      SelectionOutcome.createDeviceCall none 0 :=
  ⟨by decide,
   selection_proceeds_with_null_device [graphicsOnlyDevice] (by decide)⟩

/-- **C5.** The selection scan is first-match over devices in enumeration
order and, within the matching device, over queue families in index order:
for any list that is a prefix of compute-incapable devices followed by a
device whose family list is a prefix of compute-incapable families followed
by a compute-capable one, the loop returns that device's position and that
family's index. -/
theorem selectDevice_first_match (pre rest : List PhysicalDevice)
    (d : PhysicalDevice) (fpre fpost : List QueueFamilyProperties)
    (q : QueueFamilyProperties)
    (hpre : ∀ p ∈ pre, ∀ f ∈ p.queueFamilies,
      f.queueFlags &&& VK_QUEUE_COMPUTE_BIT = 0)
    (hfams : d.queueFamilies = fpre ++ q :: fpost)
    (hfpre : ∀ f ∈ fpre, f.queueFlags &&& VK_QUEUE_COMPUTE_BIT = 0)
    (hq : q.queueFlags &&& VK_QUEUE_COMPUTE_BIT ≠ 0) :
    deviceSelectionLoop (pre ++ d :: rest) 0 =
      ⟨some pre.length, fpre.length⟩ := by
  rw [deviceSelectionLoop_skip pre (d :: rest) 0 hpre]
  simp only [deviceSelectionLoop, hfams,
    findComputeFamily_first fpre fpost q 0 hfpre hq]
  simp

/-- Witness for `selectDevice_first_match`: the spec's scenario — only the
third device has a compute-capable family, at index 2. -/
theorem selectDevice_first_match_witness :
    (∀ p ∈ [graphicsOnlyDevice, graphicsOnlyDevice], ∀ f ∈ p.queueFamilies,
      f.queueFlags &&& VK_QUEUE_COMPUTE_BIT = 0) ∧
    computeAtTwoDevice.queueFamilies =
      [⟨VK_QUEUE_GRAPHICS_BIT⟩, ⟨VK_QUEUE_GRAPHICS_BIT⟩] ++
        (⟨VK_QUEUE_COMPUTE_BIT⟩ : QueueFamilyProperties) :: [] ∧
    (∀ f ∈ [(⟨VK_QUEUE_GRAPHICS_BIT⟩ : QueueFamilyProperties),
        ⟨VK_QUEUE_GRAPHICS_BIT⟩],
      f.queueFlags &&& VK_QUEUE_COMPUTE_BIT = 0) ∧
    (⟨VK_QUEUE_COMPUTE_BIT⟩ : QueueFamilyProperties).queueFlags &&&
      VK_QUEUE_COMPUTE_BIT ≠ 0 ∧
    deviceSelectionLoop
      [graphicsOnlyDevice, graphicsOnlyDevice, computeAtTwoDevice] 0 =
      ⟨some 2, 2⟩ := by
  refine ⟨by decide, by decide, by decide, by decide, ?_⟩
  have h := selectDevice_first_match [graphicsOnlyDevice, graphicsOnlyDevice]
    [] computeAtTwoDevice [⟨VK_QUEUE_GRAPHICS_BIT⟩, ⟨VK_QUEUE_GRAPHICS_BIT⟩]
    [] ⟨VK_QUEUE_COMPUTE_BIT⟩ (by decide) (by decide) (by decide) (by decide)
  simpa using h

/-! ### Helper lemma for the memory-type scan -/

lemma findMemoryTypeGo_none (bits required : Nat) (types : List MemoryType)
    (k : Nat)
    (h : ∀ i, (hi : i < types.length) →
      bits &&& (1 <<< (k + i)) = 0 ∨
        (types.get ⟨i, hi⟩).propertyFlags ≠ required) :
    findMemoryTypeGo bits required types k = -1 := by
  induction types generalizing k with
  | nil => rfl
  | cons t rest ih =>
    have h0 := h 0 (by simp)
    simp only [List.get] at h0
    have hcond : ¬ (bits &&& (1 <<< k) ≠ 0 ∧ t.propertyFlags = required) := by
      rcases h0 with h0 | h0
      · rw [Nat.add_zero] at h0
        exact fun hc => hc.1 h0
      · exact fun hc => h0 hc.2
    simp only [findMemoryTypeGo]
    rw [if_neg hcond]
    refine ih (k + 1) ?_
    intro i hi
    have hh := h (i + 1) (by simpa using Nat.succ_lt_succ hi)
    have harith : k + (i + 1) = k + 1 + i := by omega
    rw [harith] at hh
    simpa using hh

/-- **C4.** The memory-type scan requires exact equality of a type's property
flags with the requested set: whenever no enumerated memory type both appears
in the compatibility bitmask and has property flags exactly equal to the
requested set (superset matches included among the non-matches),
`findMemoryTypeFromProperties` returns `-1`; and whenever the same holds for
the host-visible/host-coherent set requested by `main`, the program exits
with the distinguished negative sentinel `~42 = -43` rather than a driver
error code. -/
theorem findMemoryType_exact_only_returns_neg_one (bits required : Nat)
    (props : PhysicalDeviceMemoryProperties)
    (h : ∀ i, (hi : i < props.memoryTypes.length) →
      bits &&& (1 <<< i) = 0 ∨
        (props.memoryTypes.get ⟨i, hi⟩).propertyFlags ≠ required)
    (h6 : ∀ i, (hi : i < props.memoryTypes.length) →
      bits &&& (1 <<< i) = 0 ∨
        (props.memoryTypes.get ⟨i, hi⟩).propertyFlags ≠ hostVisibleCoherent) :
    findMemoryTypeFromProperties bits props required = -1 ∧
    vectorAddMemoryTypeSelection bits props = Except.error (-43) := by
  have hg : findMemoryTypeGo bits required props.memoryTypes 0 = -1 := by
    refine findMemoryTypeGo_none bits required props.memoryTypes 0 ?_
    intro i hi
    simpa using h i hi
  have hg6 : findMemoryTypeGo bits hostVisibleCoherent props.memoryTypes 0 = -1 := by
    refine findMemoryTypeGo_none bits hostVisibleCoherent props.memoryTypes 0 ?_
    intro i hi
    simpa using h6 i hi
  refine ⟨hg, ?_⟩
  simp only [vectorAddMemoryTypeSelection, findMemoryTypeFromProperties, hg6]
  norm_num

/-- A single memory type whose flags strictly contain the requested
host-visible/host-coherent set (device-local added): a superset match but not
an exact match. -/
def supersetOnlyProps : PhysicalDeviceMemoryProperties :=
  ⟨[⟨VK_MEMORY_PROPERTY_DEVICE_LOCAL_BIT ||| VK_MEMORY_PROPERTY_HOST_VISIBLE_BIT |||
      VK_MEMORY_PROPERTY_HOST_COHERENT_BIT⟩]⟩

/-- Witness for `findMemoryType_exact_only_returns_neg_one`: with only a
superset-flagged memory type available the scan returns `-1` and the run
exits with `-43`. -/
theorem findMemoryType_exact_only_witness :
    (∀ i, (hi : i < supersetOnlyProps.memoryTypes.length) →
      1 &&& (1 <<< i) = 0 ∨
        (supersetOnlyProps.memoryTypes.get ⟨i, hi⟩).propertyFlags ≠
          hostVisibleCoherent) ∧
    findMemoryTypeFromProperties 1 supersetOnlyProps hostVisibleCoherent = -1 ∧
    vectorAddMemoryTypeSelection 1 supersetOnlyProps = Except.error (-43) :=
  ⟨by decide,
   (findMemoryType_exact_only_returns_neg_one 1 hostVisibleCoherent
      supersetOnlyProps (by decide) (by decide)).1,
   (findMemoryType_exact_only_returns_neg_one 1 hostVisibleCoherent
      supersetOnlyProps (by decide) (by decide)).2⟩

/-! ### Helper lemmas about the sub-allocation layout -/

lemma foldl_add_size (rs : List MemoryRequirements) (a : Nat) :
    rs.foldl (fun acc r => acc + r.size) a =
      a + (rs.map (fun r => r.size)).sum := by
  induction rs generalizing a with
  | nil => simp
  | cons r rest ih =>
    simp only [List.foldl_cons, List.map_cons, List.sum_cons, ih]
    omega

lemma offsetSum_succ_cons (r : MemoryRequirements)
    (rest : List MemoryRequirements) (i : Nat) :
    offsetSum (r :: rest) (i + 1) = r.size + offsetSum rest i := by
  simp [offsetSum]

lemma bindOffsets_getD (rs : List MemoryRequirements) (o i : Nat)
    (hi : i < rs.length) :
    (bindOffsets rs o).getD i 0 = o + offsetSum rs i := by
  induction rs generalizing o i with
  | nil => simp at hi
  | cons r rest ih =>
    cases i with
    | zero => simp [bindOffsets, offsetSum]
    | succ i =>
      have hi' : i < rest.length := by simpa using hi
      simp only [bindOffsets, List.getD_cons_succ, ih (o + r.size) i hi',
        offsetSum_succ_cons]
      omega

lemma offsetSum_succ (rs : List MemoryRequirements) (i : Nat)
    (hi : i < rs.length) :
    offsetSum rs (i + 1) =
      offsetSum rs i + (rs.map (fun r => r.size)).getD i 0 := by
  induction rs generalizing i with
  | nil => simp at hi
  | cons r rest ih =>
    cases i with
    | zero => simp [offsetSum]
    | succ i =>
      have hi' : i < rest.length := by simpa using hi
      simp only [offsetSum_succ_cons, ih i hi', List.map_cons,
        List.getD_cons_succ]
      omega

lemma offsetSum_mono (rs : List MemoryRequirements) (i j : Nat) (hij : i ≤ j) :
    offsetSum rs i ≤ offsetSum rs j := by
  unfold offsetSum
  have h1 : ((rs.map (fun r => r.size)).take j).take i =
      (rs.map (fun r => r.size)).take i := by
    rw [List.take_take, Nat.min_eq_left hij]
  rw [← h1]
  conv_rhs => rw [← List.take_append_drop i ((rs.map (fun r => r.size)).take j)]
  rw [List.sum_append]
  omega

/-- **C2, amended.** The layout is sequential over the RAW queried sizes:
each bind offset is the sum of the sizes of the preceding resources (so
`offset_0 = 0` and `offset_{i+1} = offset_i + size_i`, with no rounding to
the alignment), the regions `[offset_i, offset_i + size_i)` are pairwise
non-overlapping, and the total allocation size is the final offset (the sum
of all raw sizes). Offsets are NOT in general multiples of the resources'
required alignments (see the counterexample). -/
theorem planAllocation_sequential_raw_sizes (rs : List MemoryRequirements)
    (i j : Nat) (hij : i < j) (hj : j < rs.length) :
    (bindOffsets rs 0).getD i 0 = offsetSum rs i ∧
    (bindOffsets rs 0).getD j 0 = offsetSum rs j ∧
    offsetSum rs i + (rs.map (fun r => r.size)).getD i 0 ≤ offsetSum rs j ∧
    totalRequiredMemorySize rs = offsetSum rs rs.length := by
  have hi : i < rs.length := lt_trans hij hj
  refine ⟨?_, ?_, ?_, ?_⟩
  · simpa using bindOffsets_getD rs 0 i hi
  · simpa using bindOffsets_getD rs 0 j hj
  · calc offsetSum rs i + (rs.map (fun r => r.size)).getD i 0
        = offsetSum rs (i + 1) := (offsetSum_succ rs i hi).symm
      _ ≤ offsetSum rs j := offsetSum_mono rs (i + 1) j hij
  · unfold totalRequiredMemorySize offsetSum
    rw [foldl_add_size]
    rw [List.take_of_length_le (by simp)]
    omega

/-- The three queried requirements of the compute example on a device
reporting size 3, alignment 4 for `bufferA` (the counterexample
environment is `misalignedEnv`). -/
def misalignedReqs : List MemoryRequirements :=
  [bufferAMemoryRequirements misalignedEnv,
   bufferBMemoryRequirements misalignedEnv,
   bufferResultMemoryRequirements misalignedEnv]

/-- Witness for `planAllocation_sequential_raw_sizes` at the concrete
three-resource list of the counterexample environment, `i = 0`, `j = 1`. -/
theorem planAllocation_sequential_raw_sizes_witness :
    (0 : Nat) < 1 ∧ 1 < misalignedReqs.length ∧
    ((bindOffsets misalignedReqs 0).getD 0 0 = offsetSum misalignedReqs 0 ∧
     (bindOffsets misalignedReqs 0).getD 1 0 = offsetSum misalignedReqs 1 ∧
     offsetSum misalignedReqs 0 +
        (misalignedReqs.map (fun r => r.size)).getD 0 0 ≤
       offsetSum misalignedReqs 1 ∧
     totalRequiredMemorySize misalignedReqs =
       offsetSum misalignedReqs misalignedReqs.length) :=
  ⟨by decide, by decide,
   planAllocation_sequential_raw_sizes misalignedReqs 0 1 (by decide) (by decide)⟩

/-- The generalised layout agrees with the three bind offsets of the compute
example on its (all-queried-from-`bufferA`) requirement list. -/
lemma vectorAddBindOffsets_eq_bindOffsets (env : BufferMemoryEnv) :
    vectorAddBindOffsets env =
      bindOffsets [bufferAMemoryRequirements env, bufferBMemoryRequirements env,
        bufferResultMemoryRequirements env] 0 := by
  simp [vectorAddBindOffsets, bindOffsets]

/-- **C10.** All three requirement queries of the compute example pass
`bufferA`, so the total allocation size is exactly three times `bufferA`'s
requirement size and the bind offsets are `0`, `size(A)`, `2 * size(A)`; the
outputs are unchanged under any change to `bufferB`'s and `bufferResult`'s
actual requirements (any environment agreeing on `bufferA` yields the same
total and offsets). -/
theorem requirements_all_from_bufferA (env envOther : BufferMemoryEnv)
    (h : envOther.bufferA = env.bufferA) :
    vectorAddRequiredMemorySize env = 3 * env.bufferA.size ∧
    vectorAddBindOffsets env = [0, env.bufferA.size, 2 * env.bufferA.size] ∧
    vectorAddRequiredMemorySize envOther = vectorAddRequiredMemorySize env ∧
    vectorAddBindOffsets envOther = vectorAddBindOffsets env := by
  refine ⟨?_, ?_, ?_, ?_⟩ <;>
    simp [vectorAddRequiredMemorySize, vectorAddBindOffsets,
      bufferAMemoryRequirements, bufferBMemoryRequirements,
      bufferResultMemoryRequirements, h] <;>
    omega

/-- An environment with the requirements the code expects (identical buffers). -/
def envPrimary : BufferMemoryEnv :=
  ⟨⟨4096, 256, 1⟩, ⟨4096, 256, 1⟩, ⟨4096, 256, 1⟩⟩

/-- An environment agreeing with `envPrimary` on `bufferA` but with entirely
different requirements for `bufferB` and `bufferResult`. -/
def envVariantB : BufferMemoryEnv :=
  ⟨⟨4096, 256, 1⟩, ⟨8192, 16, 2⟩, ⟨12288, 4, 4⟩⟩

/-- Witness for `requirements_all_from_bufferA`. -/
theorem requirements_all_from_bufferA_witness :
    envVariantB.bufferA = envPrimary.bufferA ∧
    (vectorAddRequiredMemorySize envPrimary = 3 * envPrimary.bufferA.size ∧
     vectorAddBindOffsets envPrimary =
       [0, envPrimary.bufferA.size, 2 * envPrimary.bufferA.size] ∧
     vectorAddRequiredMemorySize envVariantB =
       vectorAddRequiredMemorySize envPrimary ∧
     vectorAddBindOffsets envVariantB = vectorAddBindOffsets envPrimary) :=
  ⟨by decide, requirements_all_from_bufferA envPrimary envVariantB (by decide)⟩

/-! ### Characterisation of the host-write loop and the readback (C1) -/

lemma hostWriteLoop_range_succ (aData bData resultData : Nat)
    (mem : Nat → Int) (n : Nat) :
    (List.range (n + 1)).foldl (hostWriteIteration aData bData resultData) mem =
      hostWriteIteration aData bData resultData
        ((List.range n).foldl (hostWriteIteration aData bData resultData) mem)
        n := by
  rw [List.range_succ, List.foldl_append, List.foldl_cons, List.foldl_nil]

/-- After `n ≤ 1024` iterations of the (aliased) input-initialisation loop,
region `[0, n)` holds the index values, region `[1024, 1024 + n)` holds `42`
(the `resultData[index] = 42` store lands on the same element the
`bData[index] = -index` store just wrote), and everything else is untouched. -/
lemma hostWriteLoop_eval (mem : Nat → Int) (n : Nat) (hn : n ≤ elements)
    (addr : Nat) :
    (List.range n).foldl (hostWriteIteration 0 elements elements) mem addr =
      if addr < n then (addr : Int)
      else if elements ≤ addr ∧ addr < elements + n then 42
      else mem addr := by
  induction n with
  | zero =>
    rw [List.range_zero, List.foldl_nil, if_neg (by omega), if_neg (by omega)]
  | succ n ih =>
    have hn' : n ≤ elements := Nat.le_of_succ_le hn
    rw [hostWriteLoop_range_succ]
    simp only [hostWriteIteration, writeMem]
    by_cases h1 : addr = elements + n
    · subst h1
      rw [if_pos rfl, if_neg (by omega),
        if_pos (show elements ≤ elements + n ∧
          elements + n < elements + (n + 1) by omega)]
    · rw [if_neg h1, if_neg h1]
      by_cases h2 : addr = 0 + n
      · rw [if_pos h2]
        have h2' : addr = n := by omega
        subst h2'
        rw [if_pos (by omega)]
      · rw [if_neg h2, ih hn']
        split_ifs <;> first | rfl | omega

/-- After the first mapping window of the compute example the block holds:
`A`-region `[0, 1024)` the index values, `B`-region `[1024, 2048)` the
constant `42` everywhere — because vector_add.cpp line 483 sets `resultData`
to `data + elements`, aliasing `bData` — and the rest is untouched; in
particular the intended result region `[2048, 3072)` was never initialised. -/
lemma vectorAddHostWrites_eval (mem : Nat → Int) (addr : Nat) :
    vectorAddHostWrites mem addr =
      if addr < elements then (addr : Int)
      else if addr < 2 * elements then 42
      else mem addr := by
  have h := hostWriteLoop_eval mem elements le_rfl addr
  unfold vectorAddHostWrites hostWriteLoop
  rw [h]
  split_ifs <;> first | rfl | omega

/-- **C1.** On the code as written, the readback is NOT `0`: buffer `B`'s
region holds `42` after the input-write window (the `resultData` pointer of
the first window aliases `bData`, vector_add.cpp line 483), so the awaited
dispatch computes `R[i] = A[i] + B[i] = i + 42`, and the readback of the
result region returns `i + 42` for every `i`, whatever the initial contents
of the allocation. The claim (and the source's own comment at lines 488-490,
"the actual result should be 0") requires `R[i] = 0`. -/
theorem vectorAdd_result_is_offset_by_42 (mem : Nat → Int) (i : Nat)
    (hi : i < elements) :
    vectorAddReadbackResult mem i = (i : Int) + 42 ∧
    vectorAddHostWrites mem (elements + i) = 42 := by
  constructor
  · unfold vectorAddReadbackResult vectorAddDeviceMemoryAfterRun shaderDispatch
    rw [if_pos (show 2 * elements ≤ 2 * elements + i ∧
      2 * elements + i < 2 * elements + elements by omega)]
    have e1 : 0 + (2 * elements + i - 2 * elements) = i := by omega
    have e2 : elements + (2 * elements + i - 2 * elements) = elements + i := by
      omega
    rw [e1, e2, vectorAddHostWrites_eval, vectorAddHostWrites_eval]
    rw [if_pos hi, if_neg (by omega), if_pos (by omega)]
  · rw [vectorAddHostWrites_eval, if_neg (by omega), if_pos (by omega)]

/-- Witness for `vectorAdd_result_is_offset_by_42` at `i = 0` on an initially
zeroed allocation: the readback is `42`, not the claimed `0`. -/
theorem vectorAdd_result_is_offset_by_42_witness :
    (0 : Nat) < elements ∧
    (vectorAddReadbackResult (fun _ => 0) 0 = ((0 : Nat) : Int) + 42 ∧
     vectorAddHostWrites (fun _ => 0) (elements + 0) = 42) :=
  ⟨by decide, vectorAdd_result_is_offset_by_42 (fun _ => 0) 0 (by decide)⟩

end VulkanExamples
